import Mathlib

/-!
Verification of the triggenger message-classification and email-ingestion
core against its specification.

The development shallowly embeds the Python source:

* `Json` models the values produced by `json.loads` (numbers are modeled as
  integers, which is the only numeric shape the backend contract uses;
  objects are modeled as key-unique association lists).
* `PyErr` models the Python exceptions that can occur on the paths of
  `MessageManager.process_message`; raising code is embedded in the
  `Except PyErr` monad.
* The classification backend (`ai_handler.send_message` composed with
  response cleaning and `json.loads`) is an external collaborator; each of
  the at most two calls is modeled by an `AIReply` oracle value: the call
  raised, returned text that fails JSON parsing, or returned text parsing
  to a given `Json` value.
* `processMessage` returns the ordered list of Trigger-callback invocations
  made during one call, together with the exception escaping to the caller
  (if any), so claims about "exactly one callback" and "never raises" are
  statements about that pair.
-/

namespace Triggenger

/-- Normalized inbound message value (message.py, class Message); the
timestamp is modeled as a natural number. -/
structure Message where
  sender : String
  subject : String
  body : String
  source : String
  date : Nat
deriving DecidableEq

/-- Action descriptor (action.py, class Action) without its `perform`
callback; the callback behavior is passed explicitly where needed. -/
structure Action where
  title : String
  description : String
  task : String
  params_description : List String
deriving DecidableEq

/-- JSON values as returned by `json.loads`. Numbers are modeled as
integers; objects as association lists assumed key-unique. -/
inductive Json where
  | null : Json
  | bool (b : Bool) : Json
  | num (n : Int) : Json
  | str (s : String) : Json
  | arr (items : List Json) : Json
  | obj (fields : List (String × Json)) : Json

/-- Python exceptions arising on the modeled paths. `json.JSONDecodeError`
subclasses `ValueError` but is matched by its own `except` clause first. -/
inductive PyErr where
  | jsonDecodeError : PyErr
  | keyError (k : String) : PyErr
  | typeError : PyErr
  | attributeError : PyErr
  | intParseError (s : String) : PyErr
  | unexpectedType (t : Int) : PyErr
  | invalidActionType (t : Int) : PyErr
  | backendError : PyErr
deriving DecidableEq

/-- First-match lookup in a JSON object's field list. -/
def Json.lookupField : List (String × Json) → String → Option Json
  | [], _ => none
  | (k, v) :: rest, key => if k = key then some v else Json.lookupField rest key

/-- Python subscript `value[key]` with a string key: on a dict it yields the
entry or raises `KeyError`; on any other JSON value it raises `TypeError`. -/
def Json.subscript (j : Json) (key : String) : Except PyErr Json :=
  match j with
  | .obj fields =>
    match Json.lookupField fields key with
    | some v => .ok v
    | none => .error (.keyError key)
  | _ => .error .typeError

/-- Python `value.get(key, default)`: defined on dicts only; any other JSON
value has no `get` attribute and raises `AttributeError`. -/
def Json.getDefault (j : Json) (key : String) (d : Json) : Except PyErr Json :=
  match j with
  | .obj fields =>
    match Json.lookupField fields key with
    | some v => .ok v
    | none => .ok d
  | _ => .error .attributeError

/-- Removal of leading whitespace characters. -/
def trimCharsLeft : List Char → List Char
  | [] => []
  | c :: rest => if c.isWhitespace then trimCharsLeft rest else c :: rest

/-- Removal of leading and trailing whitespace characters. -/
def trimChars (cs : List Char) : List Char :=
  (trimCharsLeft (trimCharsLeft cs).reverse).reverse

/-- Python `str.strip()` (ASCII whitespace). -/
def pyStrip (s : String) : String :=
  ⟨trimChars s.toList⟩

/-- Digit list to natural number, most significant first. -/
def digitsToNat (cs : List Char) : Nat :=
  cs.foldl (fun acc c => acc * 10 + (c.toNat - 48)) 0

/-- Python `int(s)` on a string: surrounding whitespace is ignored, an
optional single sign precedes a nonempty digit run; anything else raises
`ValueError`. -/
def pyStrToInt (s : String) : Except PyErr Int :=
  let cs := trimChars s.toList
  let signed : Int × List Char :=
    match cs with
    | '-' :: rest => (-1, rest)
    | '+' :: rest => (1, rest)
    | _ => (1, cs)
  if signed.2 ≠ [] ∧ signed.2.all Char.isDigit then
    .ok (signed.1 * (digitsToNat signed.2 : Int))
  else
    .error (.intParseError s)

/-- Python `int(v)` on a decoded JSON value: ints are returned, booleans
coerce (`int(True) = 1`), strings are parsed, everything else raises
`TypeError`. -/
def pyInt : Json → Except PyErr Int
  | .num n => .ok n
  | .bool b => .ok (if b then 1 else 0)
  | .str s => pyStrToInt s
  | _ => .error .typeError

/-- Behavior of one backend call as observed through
`MessageManager._send_request`: `send_message` raised, or returned text
whose cleaned form fails `json.loads`, or returned text parsing to `j`. -/
inductive AIReply where
  | raises : AIReply
  | badJson : AIReply
  | json (j : Json) : AIReply

/-- Oracle for the at most two backend calls one `process_message` makes:
the categorize call and the task-execution call. -/
structure AIBackend where
  first : AIReply
  second : AIReply

/-- MessageManager._send_request: `send_message`, response cleaning, then
`json.loads`, under the `AIReply` oracle. -/
def sendRequest (reply : AIReply) : Except PyErr Json :=
  match reply with
  | .raises => .error .backendError
  | .badJson => .error .jsonDecodeError
  | .json j => .ok j

/-- MessageManager._clean_response_str: strips leading/trailing code-fence
markers (Python `removeprefix`/`removesuffix` chain). -/
def cleanResponseStr (s : String) : String :=
  ((((s.stripPrefix "```json").stripPrefix "```").stripPrefix "`").stripSuffix "```").stripSuffix "`"

/-- MessageManager._get_action_by_type: positions 1..N index the action
list (1-based); any other type raises `ValueError`. -/
def getActionByType (actions : List Action) (messageType : Int) : Except PyErr Action :=
  if h : 0 < messageType ∧ messageType ≤ (actions.length : Int) then
    .ok (actions.get ⟨(messageType - 1).toNat, by omega⟩)
  else
    .error (.invalidActionType messageType)

/-- Condition reported to the error callback, one constructor per `except`
clause of `process_message`. -/
inductive ErrorCondition where
  | parseError : ErrorCondition
  | missingKey (k : String) : ErrorCondition
  | processing (e : PyErr) : ErrorCondition
deriving DecidableEq

/-- Mapping from an exception escaping the `try` block of
`process_message` to the condition its `except` clauses report:
`json.JSONDecodeError`, then `KeyError`, then the generic `Exception`
clause. -/
def handleError : PyErr → ErrorCondition
  | .jsonDecodeError => .parseError
  | .keyError k => .missingKey k
  | .typeError => .processing .typeError
  | .attributeError => .processing .attributeError
  | .intParseError s => .processing (.intParseError s)
  | .unexpectedType t => .processing (.unexpectedType t)
  | .invalidActionType t => .processing (.invalidActionType t)
  | .backendError => .processing .backendError

/-- One Trigger callback invocation observed during `process_message`. -/
inductive CallEvent where
  | notMatchedCall (message : Message) : CallEvent
  | matchedCall (message : Message) (action : Action) (params : Json) : CallEvent
  | errorCall (message : Message) (cond : ErrorCondition) : CallEvent

/-- Raising behavior of the Trigger's three callback slots: `none` means
the callback returns normally, `some e` that it raises `e`. -/
structure CbBehavior where
  matchedRaises : Message → Action → Json → Option PyErr
  notMatchedRaises : Message → Option PyErr
  errorRaises : Message → ErrorCondition → Option PyErr

/-- Callback behavior in which no Trigger callback ever raises. -/
def NoRaise (cb : CbBehavior) : Prop :=
  (∀ m a p, cb.matchedRaises m a p = none) ∧
  (∀ m, cb.notMatchedRaises m = none) ∧
  (∀ m c, cb.errorRaises m c = none)

/-- Callback behavior whose callbacks all return normally. -/
def quietCb : CbBehavior where
  matchedRaises := fun _ _ _ => none
  notMatchedRaises := fun _ => none
  errorRaises := fun _ _ => none

/-- Body of the `try` block of MessageManager.process_message: the ordered
callback invocations it performs and the exception escaping it (if any).
Mirrors the source: categorize request, `int(response["type"])`, then the
0 / positive / negative branches; in the positive branch
`_get_action_by_type`, the task-execution request,
`response.get("params", {})`, and the matched callback. -/
def tryBody (actions : List Action) (cb : CbBehavior) (m : Message)
    (backend : AIBackend) : List CallEvent × Option PyErr :=
  match sendRequest backend.first with
  | .error e => ([], some e)
  | .ok response =>
    match (Json.subscript response "type").bind pyInt with
    | .error e => ([], some e)
    | .ok messageType =>
      if messageType = 0 then
        ([.notMatchedCall m], cb.notMatchedRaises m)
      else if messageType > 0 then
        match getActionByType actions messageType with
        | .error e => ([], some e)
        | .ok action =>
          match sendRequest backend.second with
          | .error e => ([], some e)
          | .ok response2 =>
            match Json.getDefault response2 "params" (Json.obj []) with
            | .error e => ([], some e)
            | .ok params =>
              ([.matchedCall m action params], cb.matchedRaises m action params)
      else
        ([], some (.unexpectedType messageType))

/-- MessageManager.process_message: the `try` body wrapped in the three
`except` clauses, which route any escaping exception to the error
callback. The result pairs the ordered callback invocations with the
exception escaping `process_message` itself (only possible if the error
callback raises). -/
def processMessage (actions : List Action) (cb : CbBehavior) (m : Message)
    (backend : AIBackend) : List CallEvent × Option PyErr :=
  match tryBody actions cb m backend with
  | (events, none) => (events, none)
  | (events, some e) =>
    (events ++ [.errorCall m (handleError e)], cb.errorRaises m (handleError e))

/-- Action.display: basic rendering of an action (title, description,
parameter descriptions), stripped like the Python `str.strip()`. -/
def Action.display (a : Action) : String :=
  pyStrip ("Title: " ++ a.title ++ "\n" ++
    "Description of this message type: " ++ a.description ++ "\n" ++
    "Parameter Descriptions to be extracted or generated:\n" ++
    "[" ++ String.intercalate "," a.params_description ++ "]")

/-- Action.display_with_task: extended rendering adding the task string. -/
def Action.display_with_task (a : Action) : String :=
  a.display ++ "\n" ++ "Required Task: " ++ a.task

/-- Rendering of one catalog entry of Trigger.displayActions for the action
numbered `i`. -/
def actionEntry (i : Nat) (a : Action) : String :=
  "\x7b" ++ "TYPE:" ++ toString i ++ ". " ++ a.display ++ "\x7d,"

/-- Accumulating loop of Trigger.displayActions, numbering from `i`. -/
def displayActionsAux (i : Nat) : List Action → String
  | [] => ""
  | a :: rest => actionEntry i a ++ displayActionsAux (i + 1) rest

/-- Trigger.displayActions: concatenates one entry per action, numbered
from 1 in registration order, then strips surrounding whitespace. -/
def displayActions (actions : List Action) : String :=
  pyStrip (displayActionsAux 1 actions)

/-- Catalog decomposed as the list of its rendered entries, entry `k`
(0-based) carrying number `k + 1`. -/
def catalogEntries (actions : List Action) : List String :=
  (List.enumFrom 1 actions).map (fun p => actionEntry p.1 p.2)

/-- Trigger._default_onMessageMatched: invokes the matched action's
`perform` callback directly (no exception handling of its own);
`performOf` gives each action's perform behavior, `none` meaning a normal
return and `some e` that it raised `e`. -/
def defaultOnMessageMatched (performOf : Action → Message → Json → Option PyErr)
    (message : Message) (action : Action) (params : Json) : Option PyErr :=
  performOf action message params

/-- Trigger callback slots when all three defaults are used: the matched
slot runs `_default_onMessageMatched`; the default not-matched and error
callbacks only print and never raise. -/
def defaultCb (performOf : Action → Message → Json → Option PyErr) : CbBehavior where
  matchedRaises := fun m a p => defaultOnMessageMatched performOf m a p
  notMatchedRaises := fun _ => none
  errorRaises := fun _ _ => none

/-- Sentinel value EmailProcessor.stop puts on the task queue. -/
def stopSentinel : List Int := [-1]

/-- Sentinel check of EmailProcessor.run on a dequeued item:
`new_email_orders and new_email_orders[0] == -1` (an empty list is falsy,
hence never a sentinel). -/
def isSentinel (item : List Int) : Bool :=
  match item with
  | x :: _ => x == -1
  | [] => false

/-- Queue item that is a batch of valid 1-based positional indices
(spec data model: non-empty, every index at least 1). -/
def validBatch (item : List Int) : Prop :=
  item ≠ [] ∧ ∀ i ∈ item, 1 ≤ i

/-- Batches passed to fetch_emails by the EmailProcessor.run loop, given
the queue's item sequence and the stop-event value observed at each
loop-condition check: the loop exits when the event is set or upon
dequeuing a sentinel, and otherwise processes the item and continues. -/
def runProcessed : List Bool → List (List Int) → List (List Int)
  | stop :: srest, item :: qrest =>
    if stop then []
    else if isSentinel item then []
    else item :: runProcessed srest qrest
  | _, _ => []

/-- Observable outcome of EmailProcessor.run: the batches processed and
how many times `client.logout()` ran. -/
structure RunOutcome where
  processed : List (List Int)
  logouts : Nat
deriving DecidableEq

/-- EmailProcessor.run: login/select then the processing loop inside
`try`, with `client.logout()` in the `finally` block, so logout runs
exactly once whether login failed, an exception escaped the loop, or the
loop exited normally. -/
def processorRun (loginOk : Bool) (stops : List Bool)
    (queue : List (List Int)) : RunOutcome :=
  if loginOk then ⟨runProcessed stops queue, 1⟩ else ⟨[], 1⟩

/-- Interval between IDLE checks in seconds (email_listener.py). -/
def IDLE_CHECK_TIMEOUT : Nat := 2

/-- Maximum uptime of a single IDLE command in seconds
(email_listener.py). -/
def IDLE_COMMAND_TIMEOUT : Nat := 15 * 60

/-- Observable outcome of one EmailListener.handle_idle tick: a normal
tick (recording whether a renew cycle ran), a failed renew attempt
(idle_done/idle raised inside renew_idle_command), or an abort to
stop_client because idle_check or process_responses raised. -/
inductive TickOutcome where
  | normal (renewed : Bool) : TickOutcome
  | renewFailed : TickOutcome
  | aborted (incremented : Bool) : TickOutcome
deriving DecidableEq

/-- EmailListener.handle_idle: `idle_check` (may raise), accumulate
`idle_uptime` by the check interval, `process_responses` (may raise), and
renew the IDLE command once the accumulated uptime reaches the command
timeout; renew_idle_command resets the uptime to zero only when
`idle_done()` and `idle()` both succeed. Returns the new uptime and the
tick outcome. -/
def handleIdle (checkOk processOk renewOk : Bool) (idleUptime : Nat) :
    Nat × TickOutcome :=
  if !checkOk then (idleUptime, .aborted false)
  else
    let u := idleUptime + IDLE_CHECK_TIMEOUT
    if !processOk then (u, .aborted true)
    else if IDLE_COMMAND_TIMEOUT ≤ u then
      if renewOk then (0, .normal true) else (u, .renewFailed)
    else (u, .normal false)

/-- Concatenation of a list of strings, used to decompose the rendered
catalog into its entries. -/
def concatAll : List String → String
  | [] => ""
  | s :: rest => s ++ concatAll rest

/-- Sample message used to instantiate universally quantified theorems. -/
def sampleMessage : Message :=
  ⟨"alice@example.com", "hello", "body text", "unknown", 0⟩

/-- Sample action used to instantiate universally quantified theorems. -/
def sampleAction : Action :=
  ⟨"Greet", "a greeting", "reply politely", ["name: the sender name"]⟩

/-- Second sample action. -/
def sampleAction2 : Action :=
  ⟨"Order", "an order", "record the order", ["item: the ordered item"]⟩

/-- Third sample action. -/
def sampleAction3 : Action :=
  ⟨"Spam", "junk mail", "discard", []⟩

/-- The callbacks of `quietCb` never raise. -/
theorem quietCb_noRaise : NoRaise quietCb :=
  ⟨fun _ _ _ => rfl, fun _ => rfl, fun _ _ => rfl⟩

/-- Under non-raising callbacks, the `try` body of `process_message`
either performs no callback and raises, or performs exactly one callback
and returns normally. -/
theorem tryBody_shape (actions : List Action) (cb : CbBehavior) (m : Message)
    (backend : AIBackend) (hnr : NoRaise cb) :
    (∃ e, tryBody actions cb m backend = ([], some e)) ∨
    (∃ ev, tryBody actions cb m backend = ([ev], none)) := by
  obtain ⟨hm, hn, _⟩ := hnr
  unfold tryBody
  split
  · exact Or.inl ⟨_, rfl⟩
  split
  · exact Or.inl ⟨_, rfl⟩
  split
  · exact Or.inr ⟨_, by rw [hn]⟩
  split
  · split
    · exact Or.inl ⟨_, rfl⟩
    split
    · exact Or.inl ⟨_, rfl⟩
    split
    · exact Or.inl ⟨_, rfl⟩
    · exact Or.inr ⟨_, by rw [hm]⟩
  · exact Or.inl ⟨_, rfl⟩

/-- C1: for every message and every behavior of the classification backend
(any reply, or the send call raising), `process_message` returns normally
to its caller and performs exactly one Trigger callback invocation,
assuming the Trigger's callbacks themselves do not raise. -/
theorem processMessage_total_one_callback (actions : List Action)
    (cb : CbBehavior) (m : Message) (backend : AIBackend) (hnr : NoRaise cb) :
    (processMessage actions cb m backend).2 = none ∧
    (processMessage actions cb m backend).1.length = 1 := by
  obtain h | h := tryBody_shape actions cb m backend hnr
  · obtain ⟨e, h⟩ := h
    obtain ⟨-, -, he⟩ := hnr
    simp [processMessage, h, he]
  · obtain ⟨ev, h⟩ := h
    simp [processMessage, h]

/-- C1 witness: a concrete run (backend reply fails JSON parsing) returns
normally with exactly one callback invocation. -/
theorem processMessage_total_one_callback_witness :
    (processMessage [] quietCb sampleMessage ⟨.badJson, .badJson⟩).2 = none ∧
    (processMessage [] quietCb sampleMessage ⟨.badJson, .badJson⟩).1.length = 1 :=
  processMessage_total_one_callback [] quietCb sampleMessage ⟨.badJson, .badJson⟩
    quietCb_noRaise

/-- C2: with `t` the integer parsed from the first reply's `type` field,
`process_message` maps `t = 0` to exactly one not-matched invocation;
`1..N` to exactly one matched invocation with the action at 1-based
position `t`; and any `t < 0` or `t > N` to exactly one error invocation
with an unexpected-type condition, never a match. The second-phase reply
is assumed well-formed so the matched branch can complete. -/
theorem processMessage_type_dispatch (actions : List Action) (cb : CbBehavior)
    (m : Message) (backend : AIBackend) (t : Int) (j j2 p : Json)
    (hfirst : backend.first = .json j)
    (htype : (Json.subscript j "type").bind pyInt = .ok t)
    (hsecond : backend.second = .json j2)
    (hparams : Json.getDefault j2 "params" (Json.obj []) = .ok p)
    (hnr : NoRaise cb) :
    (t = 0 → (processMessage actions cb m backend).1 = [.notMatchedCall m]) ∧
    (0 < t → t ≤ (actions.length : Int) →
      ∃ a, getActionByType actions t = .ok a ∧
        actions.get? (t - 1).toNat = some a ∧
        (processMessage actions cb m backend).1 = [.matchedCall m a p]) ∧
    ((t < 0 ∨ (actions.length : Int) < t) →
      ∃ e, (e = PyErr.unexpectedType t ∨ e = PyErr.invalidActionType t) ∧
        (processMessage actions cb m backend).1 =
          [.errorCall m (.processing e)]) := by
  obtain ⟨hm, hn, he⟩ := hnr
  refine ⟨?_, ?_, ?_⟩
  · intro ht0
    subst ht0
    simp [processMessage, tryBody, hfirst, sendRequest, htype, hn]
  · intro ht1 ht2
    have hbound : (t - 1).toNat < actions.length := by omega
    refine ⟨actions.get ⟨(t - 1).toNat, hbound⟩, ?_, ?_, ?_⟩
    · unfold getActionByType
      rw [dif_pos ⟨ht1, ht2⟩]
    · exact List.get?_eq_get hbound
    · have hne : ¬t = 0 := by omega
      simp [processMessage, tryBody, hfirst, sendRequest, htype, hne, ht1,
        getActionByType, ht2, hsecond, hparams, hm]
  · intro ht
    rcases ht with hlt | hgt
    · have hne : ¬t = 0 := by omega
      have hng : ¬t > 0 := by omega
      refine ⟨.unexpectedType t, Or.inl rfl, ?_⟩
      simp [processMessage, tryBody, hfirst, sendRequest, htype, hne, hng,
        handleError]
    · have hne : ¬t = 0 := by omega
      have hpos : t > 0 := by omega
      have hnle : ¬t ≤ (actions.length : Int) := by omega
      refine ⟨.invalidActionType t, Or.inr rfl, ?_⟩
      simp [processMessage, tryBody, hfirst, sendRequest, htype, hne, hpos,
        getActionByType, hnle, handleError]

/-- Three-action registry used to instantiate dispatch theorems. -/
def c2Actions : List Action := [sampleAction, sampleAction2, sampleAction3]

/-- Backend oracle replying with type 2 and then with params mapping
a to x. -/
def c2Backend : AIBackend :=
  ⟨.json (.obj [("type", .str "2")]),
   .json (.obj [("params", .obj [("a", .str "x")])])⟩

/-- C2 witness: the dispatch theorem at a concrete three-action registry
with first reply of type 2. -/
theorem processMessage_type_dispatch_witness :
    ((2 : Int) = 0 →
      (processMessage c2Actions quietCb sampleMessage c2Backend).1 =
        [.notMatchedCall sampleMessage]) ∧
    (0 < (2 : Int) → (2 : Int) ≤ (c2Actions.length : Int) →
      ∃ a, getActionByType c2Actions 2 = .ok a ∧
        c2Actions.get? ((2 : Int) - 1).toNat = some a ∧
        (processMessage c2Actions quietCb sampleMessage c2Backend).1 =
          [.matchedCall sampleMessage a (Json.obj [("a", Json.str "x")])]) ∧
    (((2 : Int) < 0 ∨ (c2Actions.length : Int) < 2) →
      ∃ e, (e = PyErr.unexpectedType 2 ∨ e = PyErr.invalidActionType 2) ∧
        (processMessage c2Actions quietCb sampleMessage c2Backend).1 =
          [.errorCall sampleMessage (.processing e)]) :=
  processMessage_type_dispatch c2Actions quietCb sampleMessage c2Backend 2
    (.obj [("type", .str "2")]) (.obj [("params", .obj [("a", .str "x")])])
    (.obj [("a", .str "x")]) rfl rfl rfl rfl quietCb_noRaise

/-- C3 counterexample: `_default_onMessageMatched` does not catch an
exception raised by the matched action's perform callback — at a concrete
raising perform callback its result is not a normal return, i.e. the
exception propagates to the default matched callback's caller. -/
theorem defaultOnMessageMatched_counterexample :
    ¬defaultOnMessageMatched (fun _ _ _ => some PyErr.backendError)
        sampleMessage sampleAction (Json.obj []) = none := by
  decide

/-- C3 (amended): when the matched action's perform callback raises, the
exception propagates out of `_default_onMessageMatched` to its caller; it
is the exception handling of `process_message` that catches it and routes
it to the error callback, which observes it exactly once (under the
condition of the matching except clause), and `process_message` itself
returns normally. -/
theorem defaultOnMessageMatched_exception_routed (actions : List Action)
    (performOf : Action → Message → Json → Option PyErr) (m : Message)
    (backend : AIBackend) (t : Int) (j j2 p : Json) (a : Action) (e : PyErr)
    (hfirst : backend.first = .json j)
    (htype : (Json.subscript j "type").bind pyInt = .ok t)
    (ht : 0 < t)
    (hact : getActionByType actions t = .ok a)
    (hsecond : backend.second = .json j2)
    (hparams : Json.getDefault j2 "params" (Json.obj []) = .ok p)
    (hperform : performOf a m p = some e) :
    defaultOnMessageMatched performOf m a p = some e ∧
    processMessage actions (defaultCb performOf) m backend =
      ([.matchedCall m a p, .errorCall m (handleError e)], none) := by
  refine ⟨hperform, ?_⟩
  have hne : ¬t = 0 := by omega
  simp [processMessage, tryBody, hfirst, sendRequest, htype, hne, ht, hact,
    hsecond, hparams, defaultCb, defaultOnMessageMatched, hperform]

/-- C3 witness: the amended theorem at a concrete three-action registry, a
type-2 reply, and a perform callback raising a backend error. -/
theorem defaultOnMessageMatched_exception_routed_witness :
    defaultOnMessageMatched (fun _ _ _ => some PyErr.backendError)
      sampleMessage sampleAction2 (Json.obj [("a", Json.str "x")]) =
        some PyErr.backendError ∧
    processMessage c2Actions (defaultCb (fun _ _ _ => some PyErr.backendError))
      sampleMessage c2Backend =
        ([.matchedCall sampleMessage sampleAction2 (Json.obj [("a", Json.str "x")]),
          .errorCall sampleMessage (handleError PyErr.backendError)], none) :=
  defaultOnMessageMatched_exception_routed c2Actions
    (fun _ _ _ => some PyErr.backendError) sampleMessage c2Backend 2
    (.obj [("type", .str "2")]) (.obj [("params", .obj [("a", .str "x")])])
    (.obj [("a", .str "x")]) sampleAction2 PyErr.backendError
    rfl rfl (by decide) rfl rfl rfl rfl

/-- C4: with a three-action registry, a first reply of type 2, and a
second reply carrying the params mapping a to x, `process_message`
invokes the matched callback exactly once with the second registered
action and that mapping, never invokes not-matched or error, and returns
normally. -/
theorem processMessage_concrete_match (a1 a2 a3 : Action) (m : Message) :
    processMessage [a1, a2, a3] quietCb m
      ⟨.json (.obj [("type", .str "2")]),
       .json (.obj [("params", .obj [("a", .str "x")])])⟩ =
      ([.matchedCall m a2 (Json.obj [("a", Json.str "x")])], none) := rfl

/-- C5: a first reply whose text fails JSON parsing yields exactly one
error callback invocation with the parse-error condition, and a first
reply parsing to a JSON object lacking the type key yields exactly one
error callback invocation with the missing-key condition; matched and
not-matched are never invoked in either case. -/
theorem processMessage_parse_and_missing_key (actions : List Action)
    (cb : CbBehavior) (m : Message) (backend : AIBackend) :
    (backend.first = .badJson →
      (processMessage actions cb m backend).1 = [.errorCall m .parseError]) ∧
    (∀ fields, backend.first = .json (.obj fields) →
      Json.lookupField fields "type" = none →
      (processMessage actions cb m backend).1 =
        [.errorCall m (.missingKey "type")]) := by
  constructor
  · intro h
    simp [processMessage, tryBody, h, sendRequest, handleError]
  · intro fields h hlk
    simp [processMessage, tryBody, h, sendRequest, Json.subscript, hlk,
      Except.bind, handleError]

/-- C5 witness: the theorem applied at a parse-failing reply and at the
reply parsing to the empty JSON object. -/
theorem processMessage_parse_and_missing_key_witness :
    (processMessage [] quietCb sampleMessage ⟨.badJson, .badJson⟩).1 =
      [.errorCall sampleMessage .parseError] ∧
    (processMessage [] quietCb sampleMessage ⟨.json (.obj []), .badJson⟩).1 =
      [.errorCall sampleMessage (.missingKey "type")] :=
  ⟨(processMessage_parse_and_missing_key [] quietCb sampleMessage
      ⟨.badJson, .badJson⟩).left rfl,
   (processMessage_parse_and_missing_key [] quietCb sampleMessage
      ⟨.json (.obj []), .badJson⟩).right [] rfl rfl⟩

/-- Unfolding lemma: the displayActions accumulation equals the
concatenation of the numbered catalog entries. -/
theorem displayActionsAux_eq (i : Nat) (actions : List Action) :
    displayActionsAux i actions =
      concatAll ((List.enumFrom i actions).map fun p => actionEntry p.1 p.2) := by
  induction actions generalizing i with
  | nil => rfl
  | cons a rest ih => simp [displayActionsAux, List.enumFrom, concatAll, ih]

/-- C6: the rendered catalog has exactly N entries for N registered
actions, entry k (0-based) rendering the k-th registered action with
number k + 1, in registration order; `displayActions` is the stripped
concatenation of those entries, and for an empty registry it renders the
empty string. -/
theorem displayActions_catalog (actions : List Action) :
    (catalogEntries actions).length = actions.length ∧
    (∀ k, (catalogEntries actions)[k]? =
      (actions[k]?).map fun a => actionEntry (k + 1) a) ∧
    displayActions actions = pyStrip (concatAll (catalogEntries actions)) ∧
    displayActions [] = "" := by
  refine ⟨?_, ?_, ?_, rfl⟩
  · simp [catalogEntries, List.enumFrom_length]
  · intro k
    simp only [catalogEntries, List.getElem?_map, List.getElem?_enumFrom]
    cases actions[k]? <;> simp [Nat.add_comm]
  · simp [displayActions, catalogEntries, displayActionsAux_eq]

/-- Helper: with no sentinel among the preceding batches, the run loop
processes a prefix of them and never reaches items enqueued after the
sentinel, whatever the stop-event timing. -/
theorem runProcessed_take (stops : List Bool) (pre post : List (List Int))
    (hpre : ∀ b ∈ pre, isSentinel b = false) :
    ∃ k, runProcessed stops (pre ++ stopSentinel :: post) = pre.take k := by
  induction pre generalizing stops with
  | nil =>
    refine ⟨0, ?_⟩
    cases stops with
    | nil => rfl
    | cons s srest => cases s <;> simp [runProcessed, isSentinel, stopSentinel]
  | cons b rest ih =>
    cases stops with
    | nil => exact ⟨0, rfl⟩
    | cons s srest =>
      cases s with
      | true => exact ⟨0, by simp [runProcessed]⟩
      | false =>
        have hb : isSentinel b = false := hpre b (List.mem_cons_self b rest)
        have hrest : ∀ x ∈ rest, isSentinel x = false := fun x hx =>
          hpre x (List.mem_cons_of_mem b hx)
        obtain ⟨k, hk⟩ := ih srest hrest
        exact ⟨k + 1, by simp [runProcessed, hb, hk]⟩

/-- C7: once the stop sentinel is on the queue, EmailProcessor.run
completes at most the batches enqueued before it — whatever the
stop-event timing, including a flag set while a fetch is in flight — and
performs the session logout exactly once on loop exit. -/
theorem processorRun_stops_and_logs_out (stops : List Bool)
    (pre post : List (List Int))
    (hpre : ∀ b ∈ pre, isSentinel b = false) :
    (∃ k, (processorRun true stops (pre ++ stopSentinel :: post)).processed =
      pre.take k) ∧
    (processorRun true stops (pre ++ stopSentinel :: post)).logouts = 1 := by
  refine ⟨?_, rfl⟩
  simpa [processorRun] using runProcessed_take stops pre post hpre

/-- C7 witness: a queue holding one batch, then the sentinel, with the
stop event never observed set before the sentinel is dequeued. -/
theorem processorRun_stops_and_logs_out_witness :
    (∃ k, (processorRun true [false, false]
      ([[1, 2]] ++ stopSentinel :: [])).processed = [[1, 2]].take k) ∧
    (processorRun true [false, false]
      ([[1, 2]] ++ stopSentinel :: [])).logouts = 1 :=
  processorRun_stops_and_logs_out [false, false] [[1, 2]] [] (by decide)

/-- C8: the stop sentinel is distinguished: no batch of valid 1-based
indices is recognized as the sentinel by the consumer's check, the check
accepts the reserved sentinel value, and over the queue-item data model
(valid batches or the sentinel) the check fires exactly on the
sentinel. -/
theorem sentinel_distinguished :
    (∀ item, validBatch item → isSentinel item = false) ∧
    isSentinel stopSentinel = true ∧
    (∀ item, validBatch item ∨ item = stopSentinel →
      (isSentinel item = true ↔ item = stopSentinel)) := by
  have hvb : ∀ item, validBatch item → isSentinel item = false := by
    intro item hitem
    obtain ⟨hne, hpos⟩ := hitem
    cases item with
    | nil => rfl
    | cons x rest =>
      have hx := hpos x (List.mem_cons_self x rest)
      simp [isSentinel]
      omega
  refine ⟨hvb, rfl, ?_⟩
  intro item hitem
  constructor
  · intro hsent
    rcases hitem with hv | he
    · rw [hvb item hv] at hsent
      cases hsent
    · exact he
  · intro he
    subst he
    rfl

/-- C8 witness: a concrete valid batch is not recognized as the sentinel,
and the check fires on the reserved sentinel value. -/
theorem sentinel_distinguished_witness :
    isSentinel [3, 7] = false ∧
    (isSentinel stopSentinel = true ↔ stopSentinel = stopSentinel) :=
  ⟨sentinel_distinguished.1 [3, 7] ⟨by decide, by decide⟩,
   sentinel_distinguished.2.2 stopSentinel (Or.inr rfl)⟩

/-- C9: on a successful tick, once the accumulated idle uptime reaches
the session-lifetime threshold the listener performs exactly one renew
cycle and resets the accumulated uptime to zero; below the threshold no
renew happens and the uptime grows by exactly the per-tick interval. -/
theorem handleIdle_renew_at_threshold (u : Nat) :
    (IDLE_COMMAND_TIMEOUT ≤ u + IDLE_CHECK_TIMEOUT →
      handleIdle true true true u = (0, .normal true)) ∧
    (u + IDLE_CHECK_TIMEOUT < IDLE_COMMAND_TIMEOUT →
      handleIdle true true true u = (u + IDLE_CHECK_TIMEOUT, .normal false)) := by
  constructor
  · intro h
    simp [handleIdle, h]
  · intro h
    have h2 : ¬IDLE_COMMAND_TIMEOUT ≤ u + IDLE_CHECK_TIMEOUT := by omega
    simp [handleIdle, h2]

/-- C9 witness: the tick at accumulated uptime 898 renews and resets to
zero; the tick at accumulated uptime 0 only grows by the interval. -/
theorem handleIdle_renew_at_threshold_witness :
    handleIdle true true true 898 = (0, .normal true) ∧
    handleIdle true true true 0 = (0 + IDLE_CHECK_TIMEOUT, .normal false) :=
  ⟨(handleIdle_renew_at_threshold 898).1 (by decide),
   (handleIdle_renew_at_threshold 0).2 (by decide)⟩

/-- C10: when the first reply classifies the message as a valid type in
1..N and the second reply parses to a JSON object with no params key, the
extraction defaults to the empty mapping: `process_message` invokes the
matched callback exactly once with the empty params object and does not
route to the error callback. -/
theorem processMessage_absent_params_default (actions : List Action)
    (cb : CbBehavior) (m : Message) (backend : AIBackend) (t : Int)
    (j : Json) (fields2 : List (String × Json))
    (hfirst : backend.first = .json j)
    (htype : (Json.subscript j "type").bind pyInt = .ok t)
    (ht1 : 0 < t) (ht2 : t ≤ (actions.length : Int))
    (hsecond : backend.second = .json (.obj fields2))
    (hnoparams : Json.lookupField fields2 "params" = none)
    (hnr : NoRaise cb) :
    ∃ a, getActionByType actions t = .ok a ∧
      processMessage actions cb m backend =
        ([.matchedCall m a (Json.obj [])], none) := by
  obtain ⟨hm, -, -⟩ := hnr
  have hbound : (t - 1).toNat < actions.length := by omega
  have hne : ¬t = 0 := by omega
  refine ⟨actions.get ⟨(t - 1).toNat, hbound⟩, ?_, ?_⟩
  · unfold getActionByType
    rw [dif_pos ⟨ht1, ht2⟩]
  · simp [processMessage, tryBody, hfirst, sendRequest, htype, hne, ht1,
      getActionByType, ht2, hsecond, Json.getDefault, hnoparams, hm]

/-- C10 witness: type 1 against a one-action registry, second reply the
object with a single unrelated key. -/
theorem processMessage_absent_params_default_witness :
    ∃ a, getActionByType [sampleAction] 1 = .ok a ∧
      processMessage [sampleAction] quietCb sampleMessage
        ⟨.json (.obj [("type", .str "1")]), .json (.obj [("other", .null)])⟩ =
        ([.matchedCall sampleMessage a (Json.obj [])], none) :=
  processMessage_absent_params_default [sampleAction] quietCb sampleMessage
    ⟨.json (.obj [("type", .str "1")]), .json (.obj [("other", .null)])⟩ 1
    (.obj [("type", .str "1")]) [("other", .null)]
    rfl rfl (by decide) (by decide) rfl rfl quietCb_noRaise

end Triggenger
